import Mathlib

/-!
Verification development for the `nougat` FastAPI service (`src/main.py`).

The service is shallowly embedded: each route handler becomes a Lean
function from an `Env` (the observable behaviour of the external world:
the OpenRouter completion endpoint, `json.loads`, the YouTube transcript
API, and the Anki package download) and the parsed request body to a
`RouteRun` recording the handler's result together with the trace of
outbound completion calls and transcript fetches it performed.

Machine-relevant Python semantics that the embedding captures:

* `main.py` line 5 reads `from http.client import HTTPException`.
  `http.client.HTTPException` is a bare `Exception` subclass; CPython's
  `BaseException` accepts no keyword arguments, so evaluating
  `HTTPException(status_code=500, detail=...)` raises
  `TypeError: HTTPException() takes no keyword arguments` instead of
  constructing an exception object.  Every `except` branch in the file
  performs exactly that call, so the exception that actually leaves a
  handler is a `TypeError`, which FastAPI treats as an unhandled server
  error (a plain 500 with no detail string), not as an HTTP exception.
* `str.split(sep)[1]`, `re.sub`, `str.replace`, `str.strip` and
  `dict.get(key, default)` are modelled character-faithfully below.
-/

/-- JSON values, the payloads flowing between the service, the upstream
completion endpoint and the client. -/
inductive Json where
  | null : Json
  | bool (b : Bool) : Json
  | num (n : Int) : Json
  | str (s : String) : Json
  | arr (elems : List Json) : Json
  | obj (fields : List (String × Json)) : Json

/-- The three transcript-fetch failures named by the spec: the
`youtube_transcript_api` exceptions `VideoUnavailable`,
`TranscriptsDisabled` and `NoTranscriptFound`. -/
inductive YtFailure where
  | videoUnavailable : YtFailure
  | transcriptsDisabled : YtFailure
  | noTranscriptFound : YtFailure
deriving DecidableEq, Repr

/-- Python exceptions that can escape a statement of `main.py`. -/
inductive PyErr where
  | typeError (msg : String) : PyErr
  | indexError : PyErr
  | requestsError : PyErr
  | jsonDecodeError : PyErr
  | ytError (f : YtFailure) : PyErr
  | starletteHTTPException (status : Nat) (detail : String) : PyErr
deriving DecidableEq, Repr

/-- A printable rendering of an exception, standing for Python `str(e)`
inside the f-string details of the `except` branches. -/
def PyErr.pyStr : PyErr → String
  | .typeError m => m
  | .indexError => "list index out of range"
  | .requestsError => "requests error"
  | .jsonDecodeError => "Expecting value: line 1 column 1 (char 0)"
  | .ytError .videoUnavailable => "VideoUnavailable"
  | .ytError .transcriptsDisabled => "TranscriptsDisabled"
  | .ytError .noTranscriptFound => "NoTranscriptFound"
  | .starletteHTTPException s d => toString s ++ ": " ++ d

/-- Semantics of the expression `HTTPException(status_code=..., detail=...)`
in `main.py`.  Because line 5 imports `HTTPException` from `http.client`
(a plain `Exception` subclass, whose `BaseException.__new__` rejects all
keyword arguments), the constructor call itself raises `TypeError`; the
intended status and detail are discarded before any exception object
exists.  The two arguments are kept in the signature to mirror the call
sites but cannot influence the result, exactly as in CPython. -/
def raise_HTTPException_kw (_status_code : Nat) (_detail : String) : PyErr :=
  PyErr.typeError "HTTPException() takes no keyword arguments"

/-- What the HTTP client observes for one request, after FastAPI has
dealt with whatever the handler did. -/
inductive Outcome where
  | jsonResponse (status : Nat) (body : Json) : Outcome
  | httpError (status : Nat) (detail : String) : Outcome
  | unhandled (e : PyErr) : Outcome

/-- FastAPI's disposition of a handler run: a returned value is
serialised as a 200 JSON response; a raised *starlette* `HTTPException`
becomes an HTTP error response carrying its detail; every other
exception propagates as an unhandled server error. -/
def fastapiRespond : Except PyErr Json → Outcome
  | .ok v => .jsonResponse 200 v
  | .error (.starletteHTTPException s d) => .httpError s d
  | .error e => .unhandled e

/-- Status code seen on the wire: FastAPI converts an unhandled
exception into a plain `500 Internal Server Error`. -/
def observedStatus : Outcome → Nat
  | .jsonResponse s _ => s
  | .httpError s _ => s
  | .unhandled _ => 500

/-- One outbound POST to `https://openrouter.ai/api/v1/chat/completions`:
the model name, the single user message, and whether
`response_format  =  json_object` was requested. -/
structure CompletionCall where
  model : String
  prompt : String
  jsonResponseFormat : Bool
deriving DecidableEq, Repr

def geminiModel : String := "google/gemini-2.0-flash-lite-001"

def gpt4oModel : String := "openai/gpt-4o"

/-- The behaviour of the external world during one request.  `postOk`
says whether `requests.post` to OpenRouter plus `raise_for_status`
succeed; `content` is `response.json()["choices"][0]["message"]["content"]`
when they do; `json_loads` models the Python `json.loads` library
function; `ytResult` is what `ytt_api.fetch(video_id)` produces
(snippet texts, or one of the library's failure exceptions); `ankiOk`
says whether the `.apkg` download and `ApkgReader` open succeed, in
which case `ankiNotes` lists `reader.notes`. -/
structure AnkiNote where
  record : List (String × String)
deriving DecidableEq, Repr

structure Env where
  postOk : Bool
  content : String
  json_loads : String → Option Json
  ytResult : Except YtFailure (List String)
  ankiOk : Bool
  ankiNotes : List AnkiNote

/-- Pydantic model `QuestionRequest`. -/
structure QuestionRequest where
  number_of_questions : Int
  source_document : String
  focus_areas : List String
  sample_questions : List String
  difficulty : String
deriving DecidableEq, Repr

/-- Pydantic model `ChatBotRequest`. -/
structure ChatBotRequest where
  summary : String
  text : String
  question : String
deriving DecidableEq, Repr

/-- Pydantic model `TextObject`. -/
structure TextObject where
  text : String
deriving DecidableEq, Repr

/-- Pydantic model `FeynmanObject`. -/
structure FeynmanObject where
  term : String
  text : String
  response : String
deriving DecidableEq, Repr

/-- Pydantic model `AnkiUrlRequest`. -/
structure AnkiUrlRequest where
  url : String
deriving DecidableEq, Repr

/-- Python `repr` of a string as interpolated by an f-string when the
string sits inside a list (quote-escaping of exotic contents is not
modelled; prompts only need determinism and shape). -/
def pyReprStr (s : String) : String := "'" ++ s ++ "'"

/-- Python `str` of a list of strings, as an f-string renders
`{qr.focus_areas}`. -/
def pyReprList (xs : List String) : String :=
  "[" ++ String.intercalate ", " (xs.map pyReprStr) ++ "]"

/-- Rendering of `{qr.sample_questions if qr.sample_questions else 'None'}`:
an empty list is falsy, so it prints as `None`. -/
def sampleQuestionsDisplay (xs : List String) : String :=
  if xs.isEmpty then "None" else pyReprList xs

/-- The result of running one route handler: the value returned or the
exception raised, together with the trace of outbound completion calls
and of transcript fetches performed along the way. -/
structure RouteRun where
  result : Except PyErr Json
  calls : List CompletionCall
  fetches : List String

/-- Helper `call_openrouter` (`main.py` lines 63-81): POSTs the prompt to
OpenRouter with the gemini model and JSON response format, checks the
status, extracts the first choice's message content and `json.loads` it;
any exception is caught and re-raised via the (broken, see
`raise_HTTPException_kw`) `HTTPException` constructor. -/
def call_openrouter (env : Env) (prompt : String) :
    Except PyErr Json × List CompletionCall :=
  let call : CompletionCall := ⟨geminiModel, prompt, true⟩
  let attempt : Except PyErr Json :=
    if env.postOk then
      match env.json_loads env.content with
      | some v => .ok v
      | none => .error .jsonDecodeError
    else .error .requestsError
  match attempt with
  | .ok v => (.ok v, [call])
  | .error e =>
      (.error (raise_HTTPException_kw 500 ("OpenRouter API error: " ++ e.pyStr)),
       [call])

/-- The instruction f-string of route `mcqtext` (`main.py` lines 92-118). -/
def mcq_instruction (qr : QuestionRequest) : String :=
  "\n        Using the details below, generate STRICTLY " ++
  toString qr.number_of_questions ++
  " many multiple-choice questions in JSON format as possible. The questions must be presented in the same order the source material was presented. \n        Each should include:\n        - \"source_document\"\n        - \"area_of_focus\"\n        - \"question\"\n        - \"choices\" (list of 4)\n        - \"answer\" (one of the choices)\n        - \"rationale\" (must directly QUOTE a certain line from the text in the format\")\n        Examples of rationales include: \n        The source text stated that \"...\"\n        - \"difficulty\" (\"Easy\", \"Medium\", or \"Hard\")\n\n        Only return valid JSON.\n\n        SOURCE DOCUMENT:\n        " ++
  qr.source_document ++
  "\n\n        AREAS OF FOCUS:\n        " ++
  pyReprList qr.focus_areas ++
  "\n\n        DIFFICULTY:\n        " ++
  qr.difficulty ++
  "\n\n        SAMPLE QUESTIONS (if any):\n        " ++
  sampleQuestionsDisplay qr.sample_questions ++
  "\n        "

/-- Route `POST /nougat/mcqtext` (`main.py` lines 89-122). -/
def mcqtext (env : Env) (qr : QuestionRequest) : RouteRun :=
  let (r, cs) := call_openrouter env (mcq_instruction qr)
  match r with
  | .ok result => ⟨.ok (Json.obj [("questions", result)]), cs, []⟩
  | .error e =>
      ⟨.error (raise_HTTPException_kw 500 ("MCQ generation error: " ++ e.pyStr)),
       cs, []⟩

/-- The instruction f-string of route `tftext` (`main.py` lines 128-154). -/
def tf_instruction (qr : QuestionRequest) : String :=
  "\n        Using the details below, generate STRICTLY " ++
  toString qr.number_of_questions ++
  " true/false questions in JSON format. The questions must be presented in the same order the source material was presented. \n        Each should include:\n        - \"source_document\"\n        - \"area_of_focus\"\n        - \"question\"\n        - \"answer\" (true or false)\n        - \"rationale\" (must directly QUOTE a certain line from the text in the format\")\n        Examples of rationales include: \n        The source text stated that \"...\"\n        - \"difficulty\" (\"Easy\", \"Medium\", or \"Hard\")\n\n        Only return valid JSON.\n\n        SOURCE DOCUMENT:\n        " ++
  qr.source_document ++
  "\n\n        AREAS OF FOCUS:\n        " ++
  pyReprList qr.focus_areas ++
  "\n\n        DIFFICULTY:\n        " ++
  qr.difficulty ++
  "\n\n        SAMPLE QUESTIONS (if any):\n        " ++
  sampleQuestionsDisplay qr.sample_questions ++
  "\n\n        "

/-- Route `POST /nougat/tftext` (`main.py` lines 125-158). -/
def tftext (env : Env) (qr : QuestionRequest) : RouteRun :=
  let (r, cs) := call_openrouter env (tf_instruction qr)
  match r with
  | .ok result => ⟨.ok (Json.obj [("questions", result)]), cs, []⟩
  | .error e =>
      ⟨.error (raise_HTTPException_kw 500
        ("True/False generation error: " ++ e.pyStr)), cs, []⟩

/-- The instruction f-string of route `fitb` (`main.py` lines 164-187). -/
def fitb_instruction (qr : QuestionRequest) : String :=
  "\n        Using the details below, generate STRICTLY " ++
  toString qr.number_of_questions ++
  " fill-in-the-blank questions in JSON format.\n        Each should include:\n        - \"source_document\"\n        - \"question\" (sentence with blank)\n        - \"answer\" (correct word/phrase)\n        - \"rationale\" (must directly cite a certain line from the text in the format, enclosing the certain line in quotes\")\n        - \"difficulty\" (\"Easy\" or \"Hard\")\n\n        Use key proper nouns or facts from the text.\n\n        SOURCE DOCUMENT:\n        " ++
  qr.source_document ++
  "\n\n        AREAS OF FOCUS:\n        " ++
  pyReprList qr.focus_areas ++
  "\n\n        DIFFICULTY:\n        " ++
  qr.difficulty ++
  "\n\n        SAMPLE QUESTIONS (if any):\n        " ++
  sampleQuestionsDisplay qr.sample_questions ++
  "\n\n        "

/-- Route `POST /nougat/fitb` (`main.py` lines 161-191). -/
def fitb (env : Env) (qr : QuestionRequest) : RouteRun :=
  let (r, cs) := call_openrouter env (fitb_instruction qr)
  match r with
  | .ok result => ⟨.ok (Json.obj [("questions", result)]), cs, []⟩
  | .error e =>
      ⟨.error (raise_HTTPException_kw 500
        ("Fill-in-the-blank generation error: " ++ e.pyStr)), cs, []⟩

/-- The instruction f-string of route `cards` (`main.py` lines 197-217);
the doubled braces of the Python f-string render as literal braces. -/
def cards_instruction (qr : QuestionRequest) : String :=
  "\n        From the following, create flashcards in JSON format:\n        - \"front\" (main term)\n        - \"back\": \x7b\n            \"definition\": (short explanation),\n            \"fill_in_blank\": (sentence with blank)\n            \"citation\": (excerpt from the text where the flashcard was made)\n          \x7d\n\n        Do not invent any content not in the text.\n\n        SOURCE DOCUMENT:\n        " ++
  qr.source_document ++
  "\n\n        AREAS OF FOCUS:\n        " ++
  pyReprList qr.focus_areas ++
  "\n\n        DIFFICULTY:\n        " ++
  qr.difficulty ++
  "\n\n        "

/-- Route `POST /nougat/cards` (`main.py` lines 194-221). -/
def cards (env : Env) (qr : QuestionRequest) : RouteRun :=
  let (r, cs) := call_openrouter env (cards_instruction qr)
  match r with
  | .ok result => ⟨.ok (Json.obj [("cards", result)]), cs, []⟩
  | .error e =>
      ⟨.error (raise_HTTPException_kw 500
        ("Card generation error: " ++ e.pyStr)), cs, []⟩

/-- The instruction f-string of route `keyterms` (`main.py` lines 227-237). -/
def keyterms_instruction (tobj : TextObject) : String :=
  "\n        Based on the following context, create as many Feynman technique questions from keywords relating to concepts discussed in the text as possible. These must be important proper nouns in \n        the considering the provided context. \n\n        Examples of questions include: \"Explain how the electron proton chain works to a 5 year old.\"\n\n        TEXT:\n        " ++
  tobj.text ++
  "\n\n        Return only valid JSON with no explanations or additional text.\n        "

/-- Route `POST /nougat/keyterms` (`main.py` lines 224-241). -/
def keyterms (env : Env) (tobj : TextObject) : RouteRun :=
  let (r, cs) := call_openrouter env (keyterms_instruction tobj)
  match r with
  | .ok result => ⟨.ok (Json.obj [("terms", result)]), cs, []⟩
  | .error e =>
      ⟨.error (raise_HTTPException_kw 500
        ("Keyterm generation error: " ++ e.pyStr)), cs, []⟩

/-- The backquote character, written by code point to keep source text
readable next to the markdown-fence patterns it participates in. -/
def backquote : Char := Char.ofNat 96

/-- One left-to-right pass of Python
`re.sub(r"(three backquotes)(?:json)?", "", raw_content)`: at each
position, three consecutive backquotes are deleted, together with an
immediately following `json` when present; matching resumes after the
deleted text, exactly as `re.sub` scans without revisiting replaced
output. -/
def reSubFences : List Char → List Char
  | a :: b :: c :: 'j' :: 's' :: 'o' :: 'n' :: rest =>
    if a = backquote ∧ b = backquote ∧ c = backquote then reSubFences rest
    else a :: reSubFences (b :: c :: 'j' :: 's' :: 'o' :: 'n' :: rest)
  | a :: b :: c :: rest =>
    if a = backquote ∧ b = backquote ∧ c = backquote then reSubFences rest
    else a :: reSubFences (b :: c :: rest)
  | a :: rest => a :: reSubFences rest
  | [] => []

/-- Python `str.replace` of three consecutive backquotes by the empty
string: a left-to-right scan deleting each non-overlapping occurrence. -/
def replaceTicks : List Char → List Char
  | a :: b :: c :: rest =>
    if a = backquote ∧ b = backquote ∧ c = backquote then replaceTicks rest
    else a :: replaceTicks (b :: c :: rest)
  | a :: rest => a :: replaceTicks rest
  | [] => []

/-- Python `str.strip()`: remove leading and trailing whitespace. -/
def pyStrip (s : String) : String :=
  String.mk
    (((s.data.dropWhile Char.isWhitespace).reverse.dropWhile
        Char.isWhitespace).reverse)

/-- The cleaning pipeline of route `feynman` (`main.py` line 280):
`re.sub` deleting fenced markers, then `.replace` of any remaining
triple backquote, then `.strip()`. -/
def feynman_clean (raw_content : String) : String :=
  pyStrip (String.mk (replaceTicks (reSubFences raw_content.data)))

/-- The instruction f-string of route `feynman` (`main.py` lines 247-266);
the doubled braces render as literal braces. -/
def feynman_instruction (fo : FeynmanObject) : String :=
  "\n        Evaluate the user's explanation using the Feynman technique. Pretend you're a tutor and provide constructive criticism and a sample response. Do not have extremely formal language. \n        \x7b\n          \"clarity\": (score /10),\n          \"accuracy\": (score /10),\n          \"completeness\": (score /10),\n          \"feedback\": \"specific improvement points\" from the text. \n        \x7d\n\n        TERM:\n        " ++
  fo.term ++
  "\n\n        TEXT:\n        " ++
  fo.text ++
  "\n\n        USER RESPONSE:\n        " ++
  fo.response ++
  "\n\n        Only return valid JSON.\n        "

/-- Route `POST /nougat/feynman` (`main.py` lines 244-284): an inline
POST without `response_format`, then fence stripping, `json.loads`, and
the parsed value returned directly as the response body. -/
def feynman (env : Env) (fo : FeynmanObject) : RouteRun :=
  let call : CompletionCall := ⟨geminiModel, feynman_instruction fo, false⟩
  let attempt : Except PyErr Json :=
    if env.postOk then
      match env.json_loads (feynman_clean env.content) with
      | some v => .ok v
      | none => .error .jsonDecodeError
    else .error .requestsError
  match attempt with
  | .ok v => ⟨.ok v, [call], []⟩
  | .error e =>
      ⟨.error (raise_HTTPException_kw 500
        ("Feynman evaluation error: " ++ e.pyStr)), [call], []⟩

/-- Python `str.split` on the separator `"="`, character-faithfully:
the pieces between occurrences of `=`, with empty pieces kept. -/
def pySplitEq : List Char → List (List Char)
  | [] => [[]]
  | c :: rest =>
    if c = '=' then [] :: pySplitEq rest
    else
      match pySplitEq rest with
      | [] => [[c]]
      | p :: ps => (c :: p) :: ps

/-- The video-id extraction of route `transcriptify` (`main.py` line
290): `to.text.split("=")[1]`, where the Python index raises
`IndexError` (here: `none`) when the split yields fewer than two
pieces. -/
def video_id_of (text : String) : Option String :=
  ((pySplitEq text.data).get? 1).map String.mk

/-- The extraction exactly as the claim words it (a refinement
comparison point, deliberately written from the spec sentence, not from
the source): the substring of the input strictly between its first and
second `=` characters, which exists only when the input contains at
least two `=` characters, i.e. when splitting on `=` yields at least
three fields. -/
def spec_video_id (text : String) : Option String :=
  match pySplitEq text.data with
  | _ :: b :: _ :: _ => some (String.mk b)
  | _ => none

/-- The instruction f-string of route `transcriptify` (`main.py` lines
299-306). -/
def transcriptify_instruction (combined_text : String) : String :=
  "\n        Clean and organize the following YouTube transcript into coherent, readable text while maintaining the original meaning.\n\n        TRANSCRIPT:\n        " ++
  combined_text ++
  "\n\n        Only return the cleaned text.\n        "

/-- Route `POST /nougat/transcriptify` (`main.py` lines 287-322):
extract the video id, fetch the transcript through the proxy, join the
snippet texts, POST one cleanup prompt, and return the completion text;
one bare `except Exception` covers the whole body. -/
def transcriptify (env : Env) (tobj : TextObject) : RouteRun :=
  match video_id_of tobj.text with
  | none =>
      ⟨.error (raise_HTTPException_kw 500
        ("Transcriptify error: " ++ PyErr.indexError.pyStr)), [], []⟩
  | some video_id =>
    match env.ytResult with
    | .error f =>
        ⟨.error (raise_HTTPException_kw 500
          ("Transcriptify error: " ++ (PyErr.ytError f).pyStr)), [], [video_id]⟩
    | .ok snippets =>
      let combined_text := String.join snippets
      let call : CompletionCall := ⟨geminiModel,
        transcriptify_instruction combined_text, false⟩
      if env.postOk then
        ⟨.ok (Json.obj [("transcript", Json.str env.content)]), [call],
         [video_id]⟩
      else
        ⟨.error (raise_HTTPException_kw 500
          ("Transcriptify error: " ++ PyErr.requestsError.pyStr)), [call],
         [video_id]⟩

/-- Python `record.get(key, '')` on the note record dictionary. -/
def recordGetD (record : List (String × String)) (key dflt : String) :
    String :=
  match record.find? (fun kv => kv.1 == key) with
  | some kv => kv.2
  | none => dflt

/-- One card built from one Anki note (`main.py` lines 337-340). -/
def noteCard (note : AnkiNote) : Json :=
  Json.obj [("front", Json.str (recordGetD note.record "Front" "")),
            ("back", Json.str (recordGetD note.record "Back" ""))]

/-- Route `POST /nougat/import-anki` (`main.py` lines 325-343): download
the `.apkg`, open it with `ApkgReader`, and build one card per note in
order; no completion call is made. -/
def import_anki_from_url (env : Env) (_req : AnkiUrlRequest) : RouteRun :=
  if env.ankiOk then
    ⟨.ok (Json.obj [("cards", Json.arr (env.ankiNotes.map noteCard))]),
     [], []⟩
  else
    ⟨.error (raise_HTTPException_kw 500
      ("Anki import error: " ++ PyErr.requestsError.pyStr)), [], []⟩

/-- The instruction f-string of route `chatbot` (`main.py` lines 349-368). -/
def chatbot_instruction (c : ChatBotRequest) : String :=
  "\n        You are a tutor who is an expert in whatever domain the text and question provided below is. Your job is\n        to closely follow the user's queries and address them specifically. Provide responses without overly flowery \n        language and use the summary below to help be specific in the responses.  \n        \n        If ever asked to provide questions, provide them INDIVIDUALLY unless specified otherwise. \n        \n        Keep your conversation fluid, and be helpful to the user. \n        \n        SUMMARY:\n        " ++
  c.summary ++
  "\n        \n        TEXT:\n        " ++
  c.text ++
  "\n\n        QUESTION:\n        " ++
  c.question ++
  "\n\n        Only return the response.\n        "

/-- Route `POST /nougat/chatbot` (`main.py` lines 346-385): one POST
without `response_format`; the raw completion text is returned without
JSON parsing. -/
def chatbot (env : Env) (c : ChatBotRequest) : RouteRun :=
  let call : CompletionCall := ⟨geminiModel, chatbot_instruction c, false⟩
  if env.postOk then
    ⟨.ok (Json.obj [("result", Json.str env.content)]), [call], []⟩
  else
    ⟨.error (raise_HTTPException_kw 500 "Chatbot functionality failed"),
     [call], []⟩

/-- The instruction f-string of route `summarize` (`main.py` lines
390-408), mojibake included. -/
def summarize_instruction (t : TextObject) : String :=
  "\n        You are a summarization assistant helping distill a multi-turn chat conversation into a clear, concise summary that can be used as context for future chatbot interactions.\n        \n        Summarize the chat history below with the following goals:\n        - **Preserve all key points** shared by the user, including their questions, goals, and challenges.\n        - Highlight any important technical details, domain-specific content, or user preferences.\n        - Maintain any assumptions, constraints, or stylistic instructions expressed by the user.\n        - Structure the summary so it can effectively inform a chatbotâ€™s behavior and understanding in future conversations.\n        - WRITE RELEVANT ASPECTS OF THE CHAT VERBATIM. \n        - Write in the third person using full, clear sentences.\n        - Be concise, but do **not omit important insights or instructions**.\n        - Maintain accounts of what entity said what (chatbot vs. user)\n        - Also include what the bot should do given the summary, keep being proactive and moving the bot along.\n        \n        CHAT HISTORY:\n        " ++
  t.text ++
  "\n        \n        Return only the cleaned summary.\n        "

/-- Route `POST /chatbot/summarize` (`main.py` lines 387-424): one POST
to the `gpt-4o` model without `response_format`; the raw completion
text is returned without JSON parsing. -/
def summarize (env : Env) (t : TextObject) : RouteRun :=
  let call : CompletionCall := ⟨gpt4oModel, summarize_instruction t, false⟩
  if env.postOk then
    ⟨.ok (Json.obj [("result", Json.str env.content)]), [call], []⟩
  else
    ⟨.error (raise_HTTPException_kw 500 "Chatbot functionality failed"),
     [call], []⟩

/-- Route `GET /` (`main.py` lines 84-86). -/
def root : RouteRun :=
  ⟨.ok (Json.obj [("message", Json.str "Nougat: Question Synthesis")]), [], []⟩

/-- One registered route: HTTP method, path, and the pydantic model of
its request body (empty for the body-less root route). -/
structure Route where
  method : String
  path : String
  requestModel : String
deriving DecidableEq, Repr

/-- The routes registered on `app` by the decorators of `main.py`, in
source order. -/
def appRoutes : List Route :=
  [⟨"GET", "/", ""⟩,
   ⟨"POST", "/nougat/mcqtext", "QuestionRequest"⟩,
   ⟨"POST", "/nougat/tftext", "QuestionRequest"⟩,
   ⟨"POST", "/nougat/fitb", "QuestionRequest"⟩,
   ⟨"POST", "/nougat/cards", "QuestionRequest"⟩,
   ⟨"POST", "/nougat/keyterms", "TextObject"⟩,
   ⟨"POST", "/nougat/feynman", "FeynmanObject"⟩,
   ⟨"POST", "/nougat/transcriptify", "TextObject"⟩,
   ⟨"POST", "/nougat/import-anki", "AnkiUrlRequest"⟩,
   ⟨"POST", "/nougat/chatbot", "ChatBotRequest"⟩,
   ⟨"POST", "/chatbot/summarize", "TextObject"⟩]

/-! ### Concrete fixtures used by closed theorems -/

/-- A `json.loads` behaviour that parses the single document `7`. -/
def jlNum7 : String → Option Json :=
  fun s => if s = "7" then some (Json.num 7) else none

def qr0 : QuestionRequest := ⟨3, "doc", ["area"], [], "Easy"⟩

def tobj0 : TextObject := ⟨"watch?v=abc"⟩

def fo0 : FeynmanObject := ⟨"term", "text", "resp"⟩

def cbr0 : ChatBotRequest := ⟨"sum", "text", "why"⟩

def areq0 : AnkiUrlRequest := ⟨"http://example.com/deck.apkg"⟩

def note0 : AnkiNote := ⟨[("Front", "Q1")]⟩

/-- A world where the OpenRouter POST itself raises. -/
def env_post_fail : Env := ⟨false, "", fun _ => none, .ok [], false, []⟩

/-- A world where the completion succeeds with content `7`. -/
def env_ok7 : Env := ⟨true, "7", jlNum7, .ok [], false, []⟩

/-- A world where the completion succeeds with fenced content. -/
def env_feyn : Env := ⟨true, "```json 7 ```", jlNum7, .ok [], false, []⟩

/-- A world where the transcript fetch raises failure `f`. -/
def envYt (f : YtFailure) : Env := ⟨true, "", fun _ => none, .error f, false, []⟩

/-- A world where the Anki download and read succeed with one note. -/
def env_anki : Env := ⟨true, "", fun _ => none, .ok [], true, [note0]⟩

/-- A world where the transcript fetch succeeds with the snippet `a`. -/
def env_yt_a : Env := ⟨true, "cleaned", fun _ => none, .ok ["a"], false, []⟩

/-- A world identical to `env_yt_a` except that the fetched transcript
is the snippet `b`. -/
def env_yt_b : Env := ⟨true, "cleaned", fun _ => none, .ok ["b"], false, []⟩

/-! ### Helper lemmas about the traces of each route -/

theorem call_openrouter_calls (env : Env) (p : String) :
    (call_openrouter env p).2 = [⟨geminiModel, p, true⟩] := by
  unfold call_openrouter
  cases hp : env.postOk
  · simp [hp]
  · cases hj : env.json_loads env.content <;> simp [hp, hj]

theorem call_openrouter_ok (env : Env) (p : String) (v : Json)
    (h1 : env.postOk = true) (h2 : env.json_loads env.content = some v) :
    (call_openrouter env p).1 = .ok v := by
  unfold call_openrouter
  simp [h1, h2]

theorem mcqtext_calls (env : Env) (qr : QuestionRequest) :
    (mcqtext env qr).calls = [⟨geminiModel, mcq_instruction qr, true⟩] := by
  unfold mcqtext call_openrouter
  cases hp : env.postOk
  · simp [hp]
  · cases hj : env.json_loads env.content <;> simp [hp, hj]

theorem tftext_calls (env : Env) (qr : QuestionRequest) :
    (tftext env qr).calls = [⟨geminiModel, tf_instruction qr, true⟩] := by
  unfold tftext call_openrouter
  cases hp : env.postOk
  · simp [hp]
  · cases hj : env.json_loads env.content <;> simp [hp, hj]

theorem fitb_calls (env : Env) (qr : QuestionRequest) :
    (fitb env qr).calls = [⟨geminiModel, fitb_instruction qr, true⟩] := by
  unfold fitb call_openrouter
  cases hp : env.postOk
  · simp [hp]
  · cases hj : env.json_loads env.content <;> simp [hp, hj]

theorem cards_calls (env : Env) (qr : QuestionRequest) :
    (cards env qr).calls = [⟨geminiModel, cards_instruction qr, true⟩] := by
  unfold cards call_openrouter
  cases hp : env.postOk
  · simp [hp]
  · cases hj : env.json_loads env.content <;> simp [hp, hj]

theorem keyterms_calls (env : Env) (tobj : TextObject) :
    (keyterms env tobj).calls = [⟨geminiModel, keyterms_instruction tobj, true⟩] := by
  unfold keyterms call_openrouter
  cases hp : env.postOk
  · simp [hp]
  · cases hj : env.json_loads env.content <;> simp [hp, hj]

theorem feynman_calls (env : Env) (fo : FeynmanObject) :
    (feynman env fo).calls = [⟨geminiModel, feynman_instruction fo, false⟩] := by
  unfold feynman
  cases hp : env.postOk
  · simp [hp]
  · cases hj : env.json_loads (feynman_clean env.content) <;> simp [hp, hj]

theorem chatbot_calls (env : Env) (c : ChatBotRequest) :
    (chatbot env c).calls = [⟨geminiModel, chatbot_instruction c, false⟩] := by
  unfold chatbot
  cases hp : env.postOk <;> simp [hp]

theorem summarize_calls (env : Env) (t : TextObject) :
    (summarize env t).calls = [⟨gpt4oModel, summarize_instruction t, false⟩] := by
  unfold summarize
  cases hp : env.postOk <;> simp [hp]

theorem transcriptify_calls_le (env : Env) (tobj : TextObject) :
    (transcriptify env tobj).calls.length ≤ 1 := by
  unfold transcriptify
  rcases h : video_id_of tobj.text with _ | vid
  · simp
  · rcases hy : env.ytResult with f | sn
    · simp
    · cases hp : env.postOk <;> simp [hp]

theorem import_anki_calls (env : Env) (req : AnkiUrlRequest) :
    (import_anki_from_url env req).calls = [] := by
  unfold import_anki_from_url
  cases h : env.ankiOk <;> simp [h]

/-! ### Helper lemmas about the success path of each JSON-forwarding route -/

theorem mcqtext_ok (env : Env) (qr : QuestionRequest) (v : Json)
    (h1 : env.postOk = true) (h2 : env.json_loads env.content = some v) :
    (mcqtext env qr).result = .ok (Json.obj [("questions", v)]) := by
  unfold mcqtext call_openrouter
  simp [h1, h2]

theorem tftext_ok (env : Env) (qr : QuestionRequest) (v : Json)
    (h1 : env.postOk = true) (h2 : env.json_loads env.content = some v) :
    (tftext env qr).result = .ok (Json.obj [("questions", v)]) := by
  unfold tftext call_openrouter
  simp [h1, h2]

theorem fitb_ok (env : Env) (qr : QuestionRequest) (v : Json)
    (h1 : env.postOk = true) (h2 : env.json_loads env.content = some v) :
    (fitb env qr).result = .ok (Json.obj [("questions", v)]) := by
  unfold fitb call_openrouter
  simp [h1, h2]

theorem cards_ok (env : Env) (qr : QuestionRequest) (v : Json)
    (h1 : env.postOk = true) (h2 : env.json_loads env.content = some v) :
    (cards env qr).result = .ok (Json.obj [("cards", v)]) := by
  unfold cards call_openrouter
  simp [h1, h2]

/-! ### Lemmas about the character-level helpers -/

theorem pySplitEq_no_sep (a : List Char) (ha : '=' ∉ a) : pySplitEq a = [a] := by
  induction a with
  | nil => rfl
  | cons c rest ih =>
    have hc : ¬ c = '=' := fun h => ha (by simp [h])
    have hr : '=' ∉ rest := fun h => ha (List.mem_cons_of_mem c h)
    simp [pySplitEq, hc, ih hr]

theorem pySplitEq_sep_append (a r : List Char) (ha : '=' ∉ a) :
    pySplitEq (a ++ '=' :: r) = a :: pySplitEq r := by
  induction a with
  | nil => simp [pySplitEq]
  | cons c rest ih =>
    have hc : ¬ c = '=' := fun h => ha (by simp [h])
    have hr : '=' ∉ rest := fun h => ha (List.mem_cons_of_mem c h)
    simp [pySplitEq, hc, ih hr]

/-! ### Claim theorems -/

/-- C1 (code bug): the spec says every route catches exceptions and
re-raises them as a generic HTTP 500 response carrying a string detail.
Because `main.py` line 5 imports `HTTPException` from `http.client`, the
`except` branch's `HTTPException(status_code=500, detail=...)` call
itself raises `TypeError`, so on an upstream failure the `mcqtext` route
lets an unhandled non-HTTP `TypeError` escape and the client never sees
the string detail — contradicting the spec's clearly intended behaviour
(the keyword arguments only make sense for `fastapi.HTTPException`). -/
theorem claim_C1_error_branch_is_unhandled :
    fastapiRespond (mcqtext env_post_fail qr0).result =
      Outcome.unhandled
        (PyErr.typeError "HTTPException() takes no keyword arguments") := rfl

/-- C2 (counterexample): the claim says the transcript route maps
unavailable video, disabled transcripts and no-transcript-found to
distinct HTTP status codes.  On the same request, all three failures
produce the observed status 500, so no two of them are distinct. -/
theorem claim_C2_counterexample :
    observedStatus (fastapiRespond
      (transcriptify (envYt YtFailure.videoUnavailable) tobj0).result) = 500 ∧
    observedStatus (fastapiRespond
      (transcriptify (envYt YtFailure.transcriptsDisabled) tobj0).result) = 500 ∧
    observedStatus (fastapiRespond
      (transcriptify (envYt YtFailure.noTranscriptFound) tobj0).result) = 500 :=
  ⟨rfl, rfl, rfl⟩

/-- C2 (amended): the transcript route does not differentiate upstream
transcript-fetch failures: its single bare `except` maps every failure
kind to the same raised value, and the observed status is 500 for each,
rather than a distinct code per failure. -/
theorem claim_C2_all_transcript_failures_alike (f g : YtFailure)
    (pOk : Bool) (cont : String) (jl : String → Option Json) (aOk : Bool)
    (an : List AnkiNote) (tobj : TextObject) :
    (transcriptify ⟨pOk, cont, jl, .error f, aOk, an⟩ tobj).result =
      (transcriptify ⟨pOk, cont, jl, .error g, aOk, an⟩ tobj).result ∧
    observedStatus (fastapiRespond
      (transcriptify ⟨pOk, cont, jl, .error f, aOk, an⟩ tobj).result) = 500 := by
  unfold transcriptify
  rcases h : video_id_of tobj.text with _ | vid <;>
    simp [h, raise_HTTPException_kw, fastapiRespond, observedStatus]

/-- C3 (confirmed): whenever the upstream completion responds with a
content string that `json.loads` parses as a value `v`, the `mcqtext`,
`tftext` and `fitb` routes return exactly the object
`questions ↦ v` and `cards` returns `cards ↦ v`, forwarding `v`
unmodified. -/
theorem claim_C3_valid_json_forwarded (env : Env) (v : Json)
    (qr : QuestionRequest) (h1 : env.postOk = true)
    (h2 : env.json_loads env.content = some v) :
    (mcqtext env qr).result = .ok (Json.obj [("questions", v)]) ∧
    (tftext env qr).result = .ok (Json.obj [("questions", v)]) ∧
    (fitb env qr).result = .ok (Json.obj [("questions", v)]) ∧
    (cards env qr).result = .ok (Json.obj [("cards", v)]) :=
  ⟨mcqtext_ok env qr v h1 h2, tftext_ok env qr v h1 h2,
   fitb_ok env qr v h1 h2, cards_ok env qr v h1 h2⟩

/-- C3 witness: the forwarding theorem applied in a concrete world whose
completion content is the JSON document `7`. -/
theorem claim_C3_witness :
    env_ok7.postOk = true ∧
    env_ok7.json_loads env_ok7.content = some (Json.num 7) ∧
    (mcqtext env_ok7 qr0).result = .ok (Json.obj [("questions", Json.num 7)]) ∧
    (tftext env_ok7 qr0).result = .ok (Json.obj [("questions", Json.num 7)]) ∧
    (fitb env_ok7 qr0).result = .ok (Json.obj [("questions", Json.num 7)]) ∧
    (cards env_ok7 qr0).result = .ok (Json.obj [("cards", Json.num 7)]) := by
  have h := claim_C3_valid_json_forwarded env_ok7 (Json.num 7) qr0 rfl rfl
  exact ⟨rfl, rfl, h.1, h.2.1, h.2.2.1, h.2.2.2⟩

/-- C4 (counterexample): the claim says every route, including the
Anki import route, calls the completion API exactly once.  On a
successful Anki import the route performs zero completion calls. -/
theorem claim_C4_counterexample :
    (import_anki_from_url env_anki areq0).calls = [] ∧
    ((import_anki_from_url env_anki areq0).calls.length == 1) = false :=
  ⟨rfl, rfl⟩

/-- C4 (amended): every prompt-backed route builds its instruction by
interpolating the request's fields into its fixed template and issues
exactly one POST to the completion API; the transcript route issues at
most one (none when extraction or the transcript fetch fails); the
Anki import route issues none, building its response locally from the
downloaded package. -/
theorem claim_C4_amended_one_call_except_anki (env : Env)
    (qr : QuestionRequest) (tobj : TextObject) (fo : FeynmanObject)
    (c : ChatBotRequest) (t : TextObject) (areq : AnkiUrlRequest) :
    (mcqtext env qr).calls = [⟨geminiModel, mcq_instruction qr, true⟩] ∧
    (tftext env qr).calls = [⟨geminiModel, tf_instruction qr, true⟩] ∧
    (fitb env qr).calls = [⟨geminiModel, fitb_instruction qr, true⟩] ∧
    (cards env qr).calls = [⟨geminiModel, cards_instruction qr, true⟩] ∧
    (keyterms env tobj).calls = [⟨geminiModel, keyterms_instruction tobj, true⟩] ∧
    (feynman env fo).calls = [⟨geminiModel, feynman_instruction fo, false⟩] ∧
    (chatbot env c).calls = [⟨geminiModel, chatbot_instruction c, false⟩] ∧
    (summarize env t).calls = [⟨gpt4oModel, summarize_instruction t, false⟩] ∧
    (transcriptify env tobj).calls.length ≤ 1 ∧
    (import_anki_from_url env areq).calls = [] :=
  ⟨mcqtext_calls env qr, tftext_calls env qr, fitb_calls env qr,
   cards_calls env qr, keyterms_calls env tobj, feynman_calls env fo,
   chatbot_calls env c, summarize_calls env t,
   transcriptify_calls_le env tobj, import_anki_calls env areq⟩

/-- C5 (confirmed): for every incoming request on any route, at most one
outbound call reaches the upstream completion endpoint, in every
possible world — there is no retry. -/
theorem claim_C5_at_most_one_upstream_call (env : Env)
    (qr : QuestionRequest) (tobj : TextObject) (fo : FeynmanObject)
    (c : ChatBotRequest) (t : TextObject) (areq : AnkiUrlRequest) :
    root.calls.length ≤ 1 ∧
    (mcqtext env qr).calls.length ≤ 1 ∧
    (tftext env qr).calls.length ≤ 1 ∧
    (fitb env qr).calls.length ≤ 1 ∧
    (cards env qr).calls.length ≤ 1 ∧
    (keyterms env tobj).calls.length ≤ 1 ∧
    (feynman env fo).calls.length ≤ 1 ∧
    (transcriptify env tobj).calls.length ≤ 1 ∧
    (import_anki_from_url env areq).calls.length ≤ 1 ∧
    (chatbot env c).calls.length ≤ 1 ∧
    (summarize env t).calls.length ≤ 1 := by
  refine ⟨by simp [root], ?_, ?_, ?_, ?_, ?_, ?_,
    transcriptify_calls_le env tobj, ?_, ?_, ?_⟩
  · simp [mcqtext_calls env qr]
  · simp [tftext_calls env qr]
  · simp [fitb_calls env qr]
  · simp [cards_calls env qr]
  · simp [keyterms_calls env tobj]
  · simp [feynman_calls env fo]
  · simp [import_anki_calls env areq]
  · simp [chatbot_calls env c]
  · simp [summarize_calls env t]

/-- C6 (confirmed): the Feynman route's cleaning removes every
occurrence of fenced markers (the `re.sub` pass deleting each triple
backquote with an optional following `json`, then the `replace` pass
deleting any remaining triple backquote), trims surrounding whitespace,
parses the remainder with `json.loads`, and returns the parsed value
directly as the response body. -/
theorem claim_C6_feynman_strips_fences (env : Env) (fo : FeynmanObject)
    (v : Json) (h1 : env.postOk = true)
    (h2 : env.json_loads
      (pyStrip (String.mk (replaceTicks (reSubFences env.content.data)))) =
      some v) :
    feynman_clean env.content =
      pyStrip (String.mk (replaceTicks (reSubFences env.content.data))) ∧
    (feynman env fo).result = .ok v := by
  refine ⟨rfl, ?_⟩
  unfold feynman
  simp [h1, feynman_clean, h2]

/-- C6 witness: the theorem applied in a concrete world whose completion
content is `7` wrapped in markdown fences. -/
theorem claim_C6_witness :
    env_feyn.postOk = true ∧
    env_feyn.json_loads
      (pyStrip (String.mk (replaceTicks (reSubFences env_feyn.content.data)))) =
      some (Json.num 7) ∧
    feynman_clean env_feyn.content =
      pyStrip (String.mk (replaceTicks (reSubFences env_feyn.content.data))) ∧
    (feynman env_feyn fo0).result = .ok (Json.num 7) := by
  have h := claim_C6_feynman_strips_fences env_feyn fo0 (Json.num 7) rfl rfl
  exact ⟨rfl, rfl, h.1, h.2⟩

/-- C7 (confirmed): each endpoint named in the external-interface
section is registered on the application as a POST route with its JSON
request model. -/
theorem claim_C7_endpoints_registered :
    (⟨"POST", "/nougat/mcqtext", "QuestionRequest"⟩ : Route) ∈ appRoutes ∧
    (⟨"POST", "/nougat/tftext", "QuestionRequest"⟩ : Route) ∈ appRoutes ∧
    (⟨"POST", "/nougat/fitb", "QuestionRequest"⟩ : Route) ∈ appRoutes ∧
    (⟨"POST", "/nougat/cards", "QuestionRequest"⟩ : Route) ∈ appRoutes ∧
    (⟨"POST", "/nougat/keyterms", "TextObject"⟩ : Route) ∈ appRoutes ∧
    (⟨"POST", "/nougat/feynman", "FeynmanObject"⟩ : Route) ∈ appRoutes ∧
    (⟨"POST", "/nougat/chatbot", "ChatBotRequest"⟩ : Route) ∈ appRoutes ∧
    (⟨"POST", "/chatbot/summarize", "TextObject"⟩ : Route) ∈ appRoutes ∧
    (⟨"POST", "/nougat/transcriptify", "TextObject"⟩ : Route) ∈ appRoutes ∧
    (⟨"POST", "/nougat/import-anki", "AnkiUrlRequest"⟩ : Route) ∈ appRoutes := by
  decide

/-- C8 (counterexample): the claim says the extraction yields the
substring between the input's first and second `=` characters.  On the
input `v=abc`, which has no second `=`, the code extracts `abc` (the
suffix after the single `=`) while the claimed extraction is
undefined. -/
theorem claim_C8_counterexample :
    video_id_of "v=abc" = some "abc" ∧ spec_video_id "v=abc" = none :=
  ⟨rfl, rfl⟩

/-- C8 (amended): the transcript route extracts the video id as the
second field of splitting the input on `=` — the substring between the
first `=` and the next `=` when a second one exists, otherwise
everything after the first `=`; for every input containing no `=`, the
extraction fails (the route takes its error branch, fetches no
transcript and issues no completion call). -/
theorem claim_C8_amended_extraction (a b c : List Char) (env : Env)
    (ha : '=' ∉ a) (hb : '=' ∉ b) :
    video_id_of (String.mk a) = none ∧
    (transcriptify env ⟨String.mk a⟩).result =
      Except.error (raise_HTTPException_kw 500
        ("Transcriptify error: " ++ PyErr.indexError.pyStr)) ∧
    (transcriptify env ⟨String.mk a⟩).fetches = [] ∧
    (transcriptify env ⟨String.mk a⟩).calls = [] ∧
    video_id_of (String.mk (a ++ '=' :: b)) = some (String.mk b) ∧
    video_id_of (String.mk (a ++ '=' :: (b ++ '=' :: c))) = some (String.mk b) := by
  have h1 : video_id_of (String.mk a) = none := by
    simp [video_id_of, pySplitEq_no_sep a ha]
  refine ⟨h1, ?_, ?_, ?_, ?_, ?_⟩
  · unfold transcriptify
    simp [h1]
  · unfold transcriptify
    simp [h1]
  · unfold transcriptify
    simp [h1]
  · simp [video_id_of, pySplitEq_sep_append a b ha, pySplitEq_no_sep b hb]
  · simp [video_id_of, pySplitEq_sep_append a (b ++ '=' :: c) ha,
      pySplitEq_sep_append b c hb]

/-- C8 witness: the amended extraction theorem applied at the concrete
pieces `v`, `ab`, `c`. -/
theorem claim_C8_amended_witness :
    ('=' ∉ ['v']) ∧ ('=' ∉ ['a', 'b']) ∧
    (video_id_of (String.mk ['v']) = none ∧
     (transcriptify env_post_fail ⟨String.mk ['v']⟩).result =
       Except.error (raise_HTTPException_kw 500
         ("Transcriptify error: " ++ PyErr.indexError.pyStr)) ∧
     (transcriptify env_post_fail ⟨String.mk ['v']⟩).fetches = [] ∧
     (transcriptify env_post_fail ⟨String.mk ['v']⟩).calls = [] ∧
     video_id_of (String.mk (['v'] ++ '=' :: ['a', 'b'])) =
       some (String.mk ['a', 'b']) ∧
     video_id_of (String.mk (['v'] ++ '=' :: (['a', 'b'] ++ '=' :: ['c']))) =
       some (String.mk ['a', 'b'])) := by
  refine ⟨by decide, by decide, ?_⟩
  exact claim_C8_amended_extraction ['v'] ['a', 'b'] ['c'] env_post_fail
    (by decide) (by decide)

/-- C9 (confirmed): for every successfully downloaded and opened Anki
package, the import route returns one card per note, in the package's
note order, each card's front and back taken from the note record's
`Front` and `Back` fields with the empty string as default (see
`noteCard` and `recordGetD`). -/
theorem claim_C9_anki_cards (env : Env) (req : AnkiUrlRequest)
    (h : env.ankiOk = true) :
    (import_anki_from_url env req).result =
      .ok (Json.obj [("cards", Json.arr (env.ankiNotes.map noteCard))]) ∧
    (env.ankiNotes.map noteCard).length = env.ankiNotes.length := by
  constructor
  · unfold import_anki_from_url
    simp [h]
  · simp

/-- C9 witness: a package with a single note whose record has only a
`Front` field yields one card whose back defaults to the empty
string. -/
theorem claim_C9_witness :
    env_anki.ankiOk = true ∧
    (import_anki_from_url env_anki areq0).result =
      .ok (Json.obj [("cards", Json.arr
        [Json.obj [("front", Json.str "Q1"), ("back", Json.str "")]])]) :=
  ⟨rfl, (claim_C9_anki_cards env_anki areq0 rfl).1⟩

set_option maxRecDepth 8192 in
/-- C10 (counterexample): the claim says that on every route two
requests with equal field values produce identical outbound
completion-request bodies.  On the transcript route the instruction
interpolates the fetched transcript, not a request field: the same
request `tobj0` in two worlds whose fetches return `a` and `b` issues
two different outbound completion bodies. -/
theorem claim_C10_counterexample :
    (transcriptify env_yt_a tobj0).calls =
      [⟨geminiModel, transcriptify_instruction "a", false⟩] ∧
    (transcriptify env_yt_b tobj0).calls =
      [⟨geminiModel, transcriptify_instruction "b", false⟩] ∧
    ((transcriptify env_yt_a tobj0).calls ==
      (transcriptify env_yt_b tobj0).calls) = false :=
  ⟨rfl, rfl, rfl⟩

/-- C10 (amended): on every route whose instruction interpolates only
the request's fields — mcqtext, tftext, fitb, cards, keyterms, feynman,
chatbot and summarize, i.e. every route but the transcript route —
prompt construction is deterministic and depends only on the request
body: in any two worlds (two runs), the same request produces the same
instruction string and the identical outbound completion-request body.
The transcript route is excluded because its instruction also
interpolates the fetched transcript. -/
theorem claim_C10_amended_prompt_deterministic (env₁ env₂ : Env)
    (qr : QuestionRequest) (tobj : TextObject) (fo : FeynmanObject)
    (c : ChatBotRequest) (t : TextObject) :
    (mcqtext env₁ qr).calls = (mcqtext env₂ qr).calls ∧
    (mcqtext env₁ qr).calls = [⟨geminiModel, mcq_instruction qr, true⟩] ∧
    (tftext env₁ qr).calls = (tftext env₂ qr).calls ∧
    (fitb env₁ qr).calls = (fitb env₂ qr).calls ∧
    (cards env₁ qr).calls = (cards env₂ qr).calls ∧
    (keyterms env₁ tobj).calls = (keyterms env₂ tobj).calls ∧
    (feynman env₁ fo).calls = (feynman env₂ fo).calls ∧
    (chatbot env₁ c).calls = (chatbot env₂ c).calls ∧
    (summarize env₁ t).calls = (summarize env₂ t).calls := by
  refine ⟨?_, mcqtext_calls env₁ qr, ?_, ?_, ?_, ?_, ?_, ?_, ?_⟩
  · rw [mcqtext_calls env₁ qr, mcqtext_calls env₂ qr]
  · rw [tftext_calls env₁ qr, tftext_calls env₂ qr]
  · rw [fitb_calls env₁ qr, fitb_calls env₂ qr]
  · rw [cards_calls env₁ qr, cards_calls env₂ qr]
  · rw [keyterms_calls env₁ tobj, keyterms_calls env₂ tobj]
  · rw [feynman_calls env₁ fo, feynman_calls env₂ fo]
  · rw [chatbot_calls env₁ c, chatbot_calls env₂ c]
  · rw [summarize_calls env₁ t, summarize_calls env₂ t]
